import Mathlib

/-!
# Verification of the lambda-at-home Runtime Interface Client

A shallow embedding of the three RIC transports of this repository:

* the Push Transport (`src/runtimes/python-ric/src/runtime.py`): a local HTTP
  server exposing `/health` and `/invoke`;
* the Poll Transport (`src/runtimes/python311/bootstrap.py`): a synchronous
  long-poll loop against the Runtime API;
* the Stream Transport (`src/service/runtimes/python311/bootstrap-websocket.py`):
  a persistent duplex (WebSocket) client with reconnect/backoff and a fallback
  to the Poll Transport.

Python values are modelled by `PyVal`; network and clock effects are passed
explicitly as parameters (an `Option String` network oracle is `none` on
success and `some e` when the underlying I/O call raises with message `e`).
Machine arithmetic is exact here: every float that occurs (1.0, 2.0, …, 30.0
in the backoff; epoch milliseconds) takes integer values only, so `Nat`/`Int`
model it faithfully.
-/

/-- A Python runtime value as handled by the RIC: the JSON constructors plus
raw `bytes` (handler results may be `bytes`; parsed JSON never is). -/
inductive PyVal where
  | null : PyVal
  | bool : Bool → PyVal
  | num : Int → PyVal
  | str : String → PyVal
  | arr : List PyVal → PyVal
  | obj : List (String × PyVal) → PyVal
  | bytes : List Nat → PyVal

namespace PyVal

/-- First-match association lookup, modelling Python `dict.get` (a Python dict
has no duplicate keys, so first-match is exact). -/
def lookupField : List (String × PyVal) → String → Option PyVal
  | [], _ => none
  | (k, v) :: rest, key => if k = key then some v else lookupField rest key

/-- `d.get(key)` on a dict value; `none` both when the value is not a dict and
when the key is absent (Python would return `None`). -/
def getField : PyVal → String → Option PyVal
  | .obj fs, key => lookupField fs key
  | _, _ => none

/-- Python truthiness (`bool(v)`): `None`/`False`/`0`/empty are falsy. -/
def truthy : PyVal → Bool
  | .null => false
  | .bool b => b
  | .num n => n != 0
  | .str s => !s.isEmpty
  | .arr xs => !xs.isEmpty
  | .obj fs => !fs.isEmpty
  | .bytes bs => !bs.isEmpty

/-- `isinstance(v, bytes)`. -/
def isBytes : PyVal → Bool
  | .bytes _ => true
  | _ => false

/-- `isinstance(v, dict)`. -/
def isDict : PyVal → Bool
  | .obj _ => true
  | _ => false

mutual
/-- Whether `json.dumps` succeeds on this value.  `json.dumps` raises
`TypeError` exactly when a `bytes` value occurs anywhere inside. -/
def jsonSerializable : PyVal → Bool
  | .null => true
  | .bool _ => true
  | .num _ => true
  | .str _ => true
  | .arr xs => jsonSerializableList xs
  | .obj fs => jsonSerializableFields fs
  | .bytes _ => false

def jsonSerializableList : List PyVal → Bool
  | [] => true
  | v :: rest => jsonSerializable v && jsonSerializableList rest

def jsonSerializableFields : List (String × PyVal) → Bool
  | [] => true
  | (_, v) :: rest => jsonSerializable v && jsonSerializableFields rest
end

end PyVal

/-- The `TypeError` message `json.dumps` raises on a `bytes` value. -/
def typeErrMsg : String := "Object of type bytes is not JSON serializable"

/-! ## base64 (`base64.b64encode(result).decode()`) -/

/-- The standard base64 alphabet. -/
def b64Table : List Char :=
  "ABCDEFGHIJKLMNOPQRSTUVWXYZabcdefghijklmnopqrstuvwxyz0123456789+/".toList

/-- The base64 character for a sextet. -/
def b64Char (n : Nat) : Char := b64Table.getD n 'A'

/-- `base64.b64encode` on a byte sequence, as the decoded ASCII string. -/
def b64encode : List Nat → String
  | [] => ""
  | [a] =>
      String.mk [b64Char (a / 4), b64Char ((a % 4) * 16), '=', '=']
  | [a, b] =>
      String.mk [b64Char (a / 4), b64Char ((a % 4) * 16 + b / 16),
                 b64Char ((b % 16) * 4), '=']
  | a :: b :: c :: rest =>
      String.mk [b64Char (a / 4), b64Char ((a % 4) * 16 + b / 16),
                 b64Char ((b % 16) * 4 + c / 64), b64Char (c % 64)]
        ++ b64encode rest

/-! ## Python `int(string)` (used on the `x-deadline-ms` header) -/

/-- Whitespace stripped by Python `str.strip()` / `int()`. -/
def isPySpace (c : Char) : Bool :=
  c = ' ' || c = '\t' || c = '\n' || c = '\r' || c = '\x0b' || c = '\x0c'

/-- Digit run with Python's underscore rule: an underscore must sit between
two digits.  Returns the accumulated value, `none` on any violation. -/
def digitsValAux : List Char → Nat → Option Nat
  | [], acc => some acc
  | '_' :: c :: rest, acc =>
      if c.isDigit then digitsValAux (c :: rest) acc else none
  | ['_'], _ => none
  | c :: rest, acc =>
      if c.isDigit then digitsValAux rest (acc * 10 + (c.toNat - '0'.toNat))
      else none

/-- A nonempty digit run (underscores between digits allowed), else `none`. -/
def digitsVal : List Char → Option Nat
  | [] => none
  | '_' :: _ => none
  | l => digitsValAux l 0

/-- Python `int(s)` on a string: strips whitespace, optional sign, decimal
digits; `none` models the `ValueError` raised on anything else. -/
def pyInt (s : String) : Option Int :=
  let core := ((s.toList.dropWhile isPySpace).reverse.dropWhile isPySpace).reverse
  match core with
  | '+' :: rest => (digitsVal rest).map Int.ofNat
  | '-' :: rest => (digitsVal rest).map (fun n => -(Int.ofNat n))
  | rest => (digitsVal rest).map Int.ofNat

/-- `int(request.headers.get('x-deadline-ms', 0))` (runtime.py line 97):
an absent header yields the default `0`; a present header is parsed by
`int`, whose `ValueError` propagates (this line sits outside the `try`). -/
def deadlineHeaderValue : Option String → Except String Int
  | none => .ok 0
  | some s =>
      match pyInt s with
      | some n => .ok n
      | none => .error "ValueError"

/-! ## Shared dispatcher-side types -/

/-- The outcome of calling the user handler: a returned value, or a raised
exception captured as (type name, message, formatted stack trace). -/
inductive HandlerOutcome where
  | ok : PyVal → HandlerOutcome
  | exn : String → String → List String → HandlerOutcome

/-! ## Push Transport (`src/runtimes/python-ric/src/runtime.py`) -/

/-- The context dict built at runtime.py lines 111–114 and passed to the
handler. -/
structure PushContext where
  deadlineMs : Int
  requestId : String

/-- `context` construction (runtime.py line 112): `deadline_ms - elapsed` when
`deadline_ms > 0`, else `0`; `elapsed` is `int(now*1000 - start_time)`. -/
def mkPushContext (deadline_ms : Int) (elapsed : Int) (request_id : String) :
    PushContext :=
  { deadlineMs := if deadline_ms > 0 then deadline_ms - elapsed else 0
    requestId := request_id }

/-- The JSON envelope `{status_code, body, logs}` returned by `/invoke`. -/
structure PushEnvelope where
  status_code : Int
  body : PyVal
  logs : List PyVal

/-- A handler in the Push Transport: `(event, context) -> result`. -/
def PushHandler := PyVal → PushContext → HandlerOutcome

/-- The branch of runtime.py lines 133–138: result is a dict carrying a
truthy `base64` marker, passed through unchanged. -/
def pushMarkerBranch (result : PyVal) : PushEnvelope :=
  { status_code := 200, body := result, logs := [] }

/-- The default branch of runtime.py lines 139–144: any other non-bytes
result, passed through unchanged. -/
def pushDefaultBranch (result : PyVal) : PushEnvelope :=
  { status_code := 200, body := result, logs := [] }

/-- Response classification of a handler result (runtime.py lines 123–144):
`bytes` → base64-tagged body; dict with truthy `base64` marker → marker
branch; anything else → default branch. -/
def classifyPush (result : PyVal) : PushEnvelope :=
  match result with
  | .bytes bs =>
      { status_code := 200
        body := .obj [("base64", .bool true), ("data", .str (b64encode bs))]
        logs := [] }
  | r =>
      if r.isDict && ((r.getField "base64").map PyVal.truthy).getD false then
        pushMarkerBranch r
      else
        pushDefaultBranch r

/-- What a `POST /invoke` produces: a JSON envelope with an HTTP status and a
record of whether the handler was invoked, or an exception that escaped the
route handler uncaught (no structured envelope at all). -/
inductive PushOutcome where
  | resp : PushEnvelope → Int → Bool → PushOutcome
  | uncaught : String → PushOutcome

/-- The fixed 503 body returned while shutting down (runtime.py lines 86–94). -/
def shutdownBody : PyVal :=
  .obj [("errorMessage", .str "Service is shutting down"),
        ("errorType", .str "ServiceUnavailable")]

/-- The `/invoke` route (runtime.py lines 84–164).  Order is the source's:
shutdown check; `int` of the `x-deadline-ms` header (outside the `try`, so a
parse failure escapes uncaught); `x-request-id` default `"unknown"`; then the
guarded block builds the context, invokes the handler, and classifies the
result, mapping a raised exception to the structured 500 envelope. -/
def pushInvoke (shutdown : Bool) (deadlineHeader requestIdHeader : Option String)
    (elapsed : Int) (handler : PushHandler) (payload : PyVal) : PushOutcome :=
  if shutdown then
    .resp { status_code := 503, body := shutdownBody, logs := [] } 503 false
  else
    match deadlineHeaderValue deadlineHeader with
    | .error ty => .uncaught ty
    | .ok deadline_ms =>
      let request_id := requestIdHeader.getD "unknown"
      let context := mkPushContext deadline_ms elapsed request_id
      match handler payload context with
      | .ok result => .resp (classifyPush result) 200 true
      | .exn ty msg stack =>
          .resp
            { status_code := 500
              body := .obj [("errorMessage", .str msg),
                            ("errorType", .str ty),
                            ("stackTrace", .arr (stack.map .str))]
              logs := [] } 500 true

/-- `handle_shutdown` (runtime.py lines 166–169): the flag is only ever set
to `True`; nothing in the program resets it. -/
def handle_shutdown (_flag : Bool) : Bool := true

/-! ## Poll Transport (`src/runtimes/python311/bootstrap.py`) -/

/-- An HTTP request issued to the Runtime API by the Poll Transport: a result
POST to `/invocation/{requestId}/response` or an error POST to
`/invocation/{requestId}/error`. -/
inductive ApiPost where
  | response : String → PyVal → ApiPost
  | err : String → String → String → List String → ApiPost

/-- The observable effects of one posting helper: the Runtime API requests it
attempted, what it printed to stderr, and the exception (type, message) that
escaped it, if any. -/
structure PollPostResult where
  attempts : List ApiPost
  stderr : List String
  raised : Option (String × String)

/-- `post_response` (bootstrap.py lines 53–67).  `json.dumps(response)` runs
inside the `try`: on a non-serializable result it raises `TypeError` before
any request is issued; the `except` re-raises everything as
`Exception(f'Failed to post response: {e}')`.  `net` is `none` when `urlopen`
succeeds and `some e` when it raises with message `e`. -/
def post_response (net : Option String) (request_id : String)
    (response : PyVal) : PollPostResult :=
  if response.jsonSerializable then
    match net with
    | none => { attempts := [.response request_id response], stderr := [], raised := none }
    | some e =>
        { attempts := [.response request_id response]
          stderr := []
          raised := some ("Exception", "Failed to post response: " ++ e) }
  else
    { attempts := []
      stderr := []
      raised := some ("Exception", "Failed to post response: " ++ typeErrMsg) }

/-- `post_error` (bootstrap.py lines 69–89): always serializable (strings and
string lists only); its own failure is swallowed after printing to stderr. -/
def post_error (net : Option String) (request_id : String)
    (errorType errorMessage : String) (stackTrace : List String) :
    PollPostResult :=
  match net with
  | none =>
      { attempts := [.err request_id errorType errorMessage stackTrace]
        stderr := []
        raised := none }
  | some e =>
      { attempts := [.err request_id errorType errorMessage stackTrace]
        stderr := ["Failed to post error: " ++ e]
        raised := none }

/-- The observable effects of one poll-loop iteration after a successful
fetch: requests attempted, stderr lines, and whether the loop proceeds to the
next fetching cycle. -/
structure PollIterResult where
  attempts : List ApiPost
  stderr : List String
  continuesLoop : Bool

/-- One iteration of `main`'s loop body after `get_next_invocation` succeeded
(bootstrap.py lines 99–117): call the handler; on a returned value,
`post_response`; if that raises, the inner `except` prints
`Handler error: …` to stderr and calls `post_error` with the raised
exception's type and message and the current traceback `tb`; on a handler
exception, print and `post_error` likewise.  The iteration never escapes the
outer `try`, so the loop always continues. -/
def pollIteration (netResp netErr : Option String) (request_id : String)
    (outcome : HandlerOutcome) (tb : List String) : PollIterResult :=
  match outcome with
  | .ok result =>
      let pr := post_response netResp request_id result
      match pr.raised with
      | none => { attempts := pr.attempts, stderr := pr.stderr, continuesLoop := true }
      | some (ty, msg) =>
          let pe := post_error netErr request_id ty msg tb
          { attempts := pr.attempts ++ pe.attempts
            stderr := pr.stderr ++ ("Handler error: " ++ msg) :: pe.stderr
            continuesLoop := true }
  | .exn ty msg _stack =>
      let pe := post_error netErr request_id ty msg tb
      { attempts := pe.attempts
        stderr := ("Handler error: " ++ msg) :: pe.stderr
        continuesLoop := true }

/-- The `__main__` guard at the bottom of bootstrap.py (lines 124–126):
`main()` — the poll loop — runs only when the module's `__name__` is
`"__main__"`, i.e. when the file is executed as a script. -/
def bootstrapMainGuardRuns (moduleDunderName : String) : Bool :=
  moduleDunderName == "__main__"

/-- Whether `fallback_to_http` (bootstrap-websocket.py lines 179–184)
actually starts the poll loop: it executes `import bootstrap`, under which
the imported module's `__name__` is `"bootstrap"`. -/
def pollLoopStartedOnFallback : Bool :=
  bootstrapMainGuardRuns "bootstrap"

/-! ## Stream Transport (`src/service/runtimes/python311/bootstrap-websocket.py`) -/

/-- `FUNCTION_VERSION` (bootstrap-websocket.py line 15), default `'1'`. -/
def FUNCTION_VERSION : String := "1"

/-- The outbound `response` frame built at bootstrap-websocket.py
lines 128–135. -/
def responseFrame (request_id : PyVal) (result : PyVal) : PyVal :=
  .obj [("type", .str "response"),
        ("request_id", request_id),
        ("payload", result),
        ("headers", .obj [("X-Amz-Executed-Version", .str FUNCTION_VERSION)])]

/-- The outbound `error` frame built at bootstrap-websocket.py
lines 143–152. -/
def errorFrame (request_id : PyVal) (errorType errorMessage : String)
    (stackTrace : List String) : PyVal :=
  .obj [("type", .str "error"),
        ("request_id", request_id),
        ("error_message", .str errorMessage),
        ("error_type", .str errorType),
        ("stack_trace", .arr (stackTrace.map .str)),
        ("headers", .obj [("X-Amz-Function-Error", .str "Unhandled")])]

/-- The observable effects of one `send` call: the frames on which
`websocket.send` was actually invoked, the frames that reached the socket,
and the stderr lines.  `send` itself never raises. -/
structure SendResult where
  attempted : List PyVal
  delivered : List PyVal
  stderr : List String

/-- `WebSocketRuntime.send` (bootstrap-websocket.py lines 154–162): when a
socket exists and is connected, `json.dumps(message)` runs inside the `try`
(a serialization failure is caught and logged before `websocket.send` runs);
a send failure (`net = some e`) is caught and logged; otherwise the frame is
delivered.  With no socket or not connected, it only logs. -/
def wsSend (hasSocket connected : Bool) (net : Option String)
    (frame : PyVal) : SendResult :=
  if hasSocket && connected then
    if frame.jsonSerializable then
      match net with
      | none => { attempted := [frame], delivered := [frame], stderr := [] }
      | some e =>
          { attempted := [frame]
            delivered := []
            stderr := ["Failed to send WebSocket message: " ++ e] }
    else
      { attempted := []
        delivered := []
        stderr := ["Failed to send WebSocket message: " ++ typeErrMsg] }
  else
    { attempted := []
      delivered := []
      stderr := ["WebSocket not connected, cannot send message"] }

/-- The observable effects of one `handle_invocation` call: frames attempted
and delivered, stderr lines, whether any path reaches `handle_reconnect`
(none does — reconnection is triggered only by `message_loop`'s exception
handlers at lines 79–86), and whether an exception escapes to the caller
(none does — `send` never raises, and the `except` at line 139 catches the
handler's exceptions). -/
structure WsInvocationResult where
  attempted : List PyVal
  delivered : List PyVal
  stderr : List String
  reconnectTriggered : Bool
  raisedOut : Bool

/-- `WebSocketRuntime.handle_invocation` (bootstrap-websocket.py
lines 101–152), given the handler's outcome on the invocation's payload:
on a returned result, send the `response` frame; on a raised exception,
print `Handler error: …` and send the `error` frame. -/
def wsHandleInvocation (hasSocket connected : Bool) (net : Option String)
    (request_id : PyVal) (outcome : HandlerOutcome) : WsInvocationResult :=
  match outcome with
  | .ok result =>
      let s := wsSend hasSocket connected net (responseFrame request_id result)
      { attempted := s.attempted, delivered := s.delivered, stderr := s.stderr
        reconnectTriggered := false, raisedOut := false }
  | .exn ty msg stack =>
      let s := wsSend hasSocket connected net (errorFrame request_id ty msg stack)
      { attempted := s.attempted, delivered := s.delivered
        stderr := ("Handler error: " ++ msg) :: s.stderr
        reconnectTriggered := false, raisedOut := false }

/-- `max_reconnect_attempts` (bootstrap-websocket.py line 35). -/
def max_reconnect_attempts : Nat := 10

/-- The mutable state relevant to reconnection: `reconnect_attempts` and
`reconnect_delay` (in seconds; its float values are exactly the naturals
1, 2, 4, 8, 16, 30). -/
structure WsReconnectState where
  reconnect_attempts : Nat
  reconnect_delay : Nat

/-- The trace of a reconnection episode in which every `connect()` attempt
fails: the delays slept (in order), whether `fallback_to_http` was reached,
and the final state. -/
structure ReconnectTrace where
  sleeps : List Nat
  fellBack : Bool
  final : WsReconnectState

/-- `handle_reconnect` (bootstrap-websocket.py lines 164–177) in the scenario
where every connection attempt fails (`connect`, lines 40–55, then calls
`handle_reconnect` again), with `should_stop = stop`.  Faithful to the
source's order: increment `reconnect_attempts`, sleep the CURRENT
`reconnect_delay`, await `connect()` (which recurses), and only after that
call returns execute `self.reconnect_delay = min(self.reconnect_delay * 2,
30.0)`.  Terminates because `reconnect_attempts` strictly increases toward
`max_reconnect_attempts`. -/
def handle_reconnect_allFail (stop : Bool) (st : WsReconnectState) :
    ReconnectTrace :=
  if _h : st.reconnect_attempts < max_reconnect_attempts ∧ stop = false then
    let inner := handle_reconnect_allFail stop
      { reconnect_attempts := st.reconnect_attempts + 1
        reconnect_delay := st.reconnect_delay }
    { sleeps := st.reconnect_delay :: inner.sleeps
      fellBack := inner.fellBack
      final :=
        { reconnect_attempts := inner.final.reconnect_attempts
          reconnect_delay := min (inner.final.reconnect_delay * 2) 30 } }
  else
    { sleeps := [], fellBack := true, final := st }
termination_by max_reconnect_attempts - st.reconnect_attempts
decreasing_by
  simp only [max_reconnect_attempts] at *
  omega

/-- The initial reconnection state (bootstrap-websocket.py lines 34–36):
zero attempts, delay 1.0 s. -/
def initialWsState : WsReconnectState :=
  { reconnect_attempts := 0, reconnect_delay := 1 }

/-! ## Theorems -/

/-- Evaluation of the reconnection episode in which every connection attempt
fails, from the initial state: ten sleeps of 1 second each, fallback reached,
final state `(10, 30)`. -/
theorem reconnect_allFail_eval :
    handle_reconnect_allFail false initialWsState =
      { sleeps := List.replicate 10 1
        fellBack := true
        final := { reconnect_attempts := 10, reconnect_delay := 30 } } := by
  simp [handle_reconnect_allFail, initialWsState, max_reconnect_attempts]

/-- C1: the backoff delays actually slept before the 10 consecutive failed
reconnection attempts are 1 s every time — not the claimed
1, 2, 4, 8, 16, 30, … — because the doubling statement runs only after the
recursive `connect()` call returns; fallback is reached after the 10
attempts. -/
theorem c1_backoff_divergence :
    (handle_reconnect_allFail false initialWsState).sleeps = List.replicate 10 1 ∧
    (handle_reconnect_allFail false initialWsState).fellBack = true ∧
    (handle_reconnect_allFail false initialWsState).final.reconnect_attempts = 10 ∧
    List.replicate 10 1 ≠ ([1, 2, 4, 8, 16, 30, 30, 30, 30, 30] : List Nat) := by
  refine ⟨?_, ?_, ?_, by decide⟩ <;> rw [reconnect_allFail_eval]

/-- C5: exhausting the reconnection attempts does reach `fallback_to_http`,
but `import bootstrap` does not start the poll loop: the imported module's
`__name__` is `"bootstrap"`, so the `__main__` guard at the bottom of
bootstrap.py never calls `main()`. -/
theorem c5_fallback_divergence :
    (handle_reconnect_allFail false initialWsState).fellBack = true ∧
    pollLoopStartedOnFallback = false := by
  refine ⟨?_, rfl⟩
  rw [reconnect_allFail_eval]

/-- C2: with a handler that returns its input verbatim, `/invoke` (not
shutting down, deadline header well-formed) answers with status 200 and a
body structurally equal to the JSON-serializable payload `P`, for every
`P`. -/
theorem c2_push_echo_roundtrip :
    ∀ (P : PyVal) (dh rh : Option String) (e d : Int),
      P.jsonSerializable = true →
      deadlineHeaderValue dh = .ok d →
      pushInvoke false dh rh e (fun ev _ => .ok ev) P =
        .resp { status_code := 200, body := P, logs := [] } 200 true := by
  intro P dh rh e d hser hdh
  cases P <;>
    simp_all [pushInvoke, classifyPush, pushMarkerBranch, pushDefaultBranch,
      PyVal.jsonSerializable, PyVal.isDict]

/-- Witness for C2 at the payload `{"test": "data"}` with deadline header
`"3000"`. -/
theorem c2_witness :
    pushInvoke false (some "3000") (some "test-123") 0 (fun ev _ => .ok ev)
        (.obj [("test", .str "data")]) =
      .resp { status_code := 200, body := .obj [("test", .str "data")], logs := [] }
        200 true :=
  c2_push_echo_roundtrip _ _ _ _ 3000 (by rfl) (by rfl)

/-- C6: once the shutdown flag is set (and `handle_shutdown` only ever sets
it to true), every `/invoke` call returns the 503 `ServiceUnavailable`
envelope, for any headers, payload and handler, and the handler is never
invoked. -/
theorem c6_shutdown_503 :
    (∀ f : Bool, handle_shutdown f = true) ∧
    ∀ (dh rh : Option String) (e : Int) (h : PushHandler) (p : PyVal),
      pushInvoke true dh rh e h p =
        .resp { status_code := 503, body := shutdownBody, logs := [] } 503 false :=
  ⟨fun _ => rfl, fun _ _ _ _ _ => rfl⟩

/-- C7: the context's `deadlineMs` equals `D - E` when the supplied deadline
`D` is positive, and `0` when it is not; an absent `x-deadline-ms` header
defaults to deadline `0`. -/
theorem c7_remaining_time :
    ∀ (D E : Int) (rid : String),
      (D > 0 → (mkPushContext D E rid).deadlineMs = D - E) ∧
      deadlineHeaderValue none = Except.ok 0 ∧
      (mkPushContext 0 E rid).deadlineMs = 0 := by
  intro D E rid
  refine ⟨fun hD => ?_, rfl, ?_⟩ <;> simp [mkPushContext]
  intro h
  omega

/-- Witness for C7 at `D = 3000`, `E = 250`. -/
theorem c7_witness :
    (mkPushContext 3000 250 "w").deadlineMs = 3000 - 250 ∧
    (mkPushContext 0 250 "w").deadlineMs = 0 :=
  ⟨(c7_remaining_time 3000 250 "w").1 (by decide),
   (c7_remaining_time 0 250 "w").2.2⟩

/-- C8: a present but unparseable `x-deadline-ms` header makes `int(...)`
raise outside the `try` block: the request escapes uncaught — it yields no
structured envelope and never reaches the handler (the outcome is the same
for every handler). -/
theorem c8_unparsed_deadline_uncaught :
    ∀ (s : String) (rh : Option String) (e : Int) (h : PushHandler) (p : PyVal),
      pyInt s = none →
      pushInvoke false (some s) rh e h p = .uncaught "ValueError" := by
  intro s rh e h p hs
  simp [pushInvoke, deadlineHeaderValue, hs]

/-- Witness for C8 at the concrete header value `"abc"`. -/
theorem c8_witness :
    pushInvoke false (some "abc") none 0 (fun ev _ => .ok ev) .null =
      .uncaught "ValueError" :=
  c8_unparsed_deadline_uncaught "abc" none 0 _ .null (by rfl)

/-- C9: for every non-bytes handler result, the truthy-`base64`-marker branch
and the default branch of the Push response classification produce the same
envelope, so the classification collapses to the default branch. -/
theorem c9_marker_branch_equivalence :
    ∀ r : PyVal,
      pushMarkerBranch r = pushDefaultBranch r ∧
      (r.isBytes = false → classifyPush r = pushDefaultBranch r) := by
  intro r
  refine ⟨rfl, fun hr => ?_⟩
  cases r <;>
    simp_all [classifyPush, pushMarkerBranch, pushDefaultBranch, PyVal.isBytes]

/-- Witness for C9 at the dict result `{"base64": true}` (which takes the
marker branch). -/
theorem c9_witness :
    pushMarkerBranch (.obj [("base64", .bool true)]) =
        pushDefaultBranch (.obj [("base64", .bool true)]) ∧
      classifyPush (.obj [("base64", .bool true)]) =
        pushDefaultBranch (.obj [("base64", .bool true)]) :=
  ⟨(c9_marker_branch_equivalence _).1,
   (c9_marker_branch_equivalence _).2 (by rfl)⟩

/-- C3 counterexample: a handler result of raw bytes is NOT surfaced
base64-tagged by every transport.  In the Poll Transport the only Runtime API
request issued for it is an error post (`json.dumps` raised before the result
could be posted), and in the Stream Transport no frame is delivered. -/
theorem c3_counterexample :
    (pollIteration none none "r1" (.ok (.bytes [104, 105])) ["tb"]).attempts =
      [.err "r1" "Exception" ("Failed to post response: " ++ typeErrMsg) ["tb"]] ∧
    (wsHandleInvocation true true none (.str "r1") (.ok (.bytes [104, 105]))).delivered =
      [] := by
  exact ⟨rfl, rfl⟩

/-- C3 amended: only the Push Transport surfaces a bytes result tagged as
base64; the Poll Transport fails to serialize it and posts an error for that
request instead, and the Stream Transport fails to serialize the response
frame and delivers nothing; no transport surfaces raw unencoded bytes. -/
theorem c3_amended_binary_surfacing :
    ∀ (bs : List Nat) (netResp netErr : Option String) (rid : String)
      (tb : List String) (hs c : Bool) (net : Option String) (ridv : PyVal),
      classifyPush (.bytes bs) =
        { status_code := 200
          body := .obj [("base64", .bool true), ("data", .str (b64encode bs))]
          logs := [] } ∧
      (pollIteration netResp netErr rid (.ok (.bytes bs)) tb).attempts =
        [.err rid "Exception" ("Failed to post response: " ++ typeErrMsg) tb] ∧
      (wsHandleInvocation hs c net ridv (.ok (.bytes bs))).delivered = [] := by
  intro bs netResp netErr rid tb hs c net ridv
  refine ⟨rfl, ?_, ?_⟩
  · cases netErr <;>
      simp [pollIteration, post_response, post_error, PyVal.jsonSerializable]
  · cases hs <;> cases c <;>
      cases net <;>
        simp [wsHandleInvocation, wsSend, responseFrame, PyVal.jsonSerializable,
          PyVal.jsonSerializableFields, PyVal.jsonSerializableList]

/-- C4 counterexample: when posting a successful result fails, something
further IS sent to the Runtime API for that request id — the inner `except`
catches the re-raised exception and calls `post_error`, so an error post for
`req-1` follows the failed response post. -/
theorem c4_counterexample :
    (pollIteration (some "URLError") none "req-1"
        (.ok (.obj [("ok", .bool true)])) ["tb"]).attempts =
      [.response "req-1" (.obj [("ok", .bool true)]),
       .err "req-1" "Exception" "Failed to post response: URLError" ["tb"]] := by
  rfl

/-- C4 amended: a failed post of a successful (serializable) result is caught
by the handler-error path: it is logged to stderr, exactly one error post for
the same request id is attempted at the error endpoint (whose own failure is
swallowed), the result post is never retried, and the loop proceeds to the
next fetching cycle. -/
theorem c4_amended_post_failure_path :
    ∀ (e : String) (netErr : Option String) (rid : String) (v : PyVal)
      (tb : List String),
      v.jsonSerializable = true →
      (pollIteration (some e) netErr rid (.ok v) tb).attempts =
        [.response rid v,
         .err rid "Exception" ("Failed to post response: " ++ e) tb] ∧
      ("Handler error: " ++ ("Failed to post response: " ++ e)) ∈
        (pollIteration (some e) netErr rid (.ok v) tb).stderr ∧
      (pollIteration (some e) netErr rid (.ok v) tb).continuesLoop = true := by
  intro e netErr rid v tb hser
  cases netErr <;>
    simp [pollIteration, post_response, post_error, hser]

/-- Witness for C4 (amended) at a concrete serializable result and network
failure. -/
theorem c4_amended_witness :
    (pollIteration (some "URLError") none "req-1" (.ok .null) ["tb"]).attempts =
      [.response "req-1" .null,
       .err "req-1" "Exception" ("Failed to post response: " ++ "URLError") ["tb"]] ∧
    ("Handler error: " ++ ("Failed to post response: " ++ "URLError")) ∈
      (pollIteration (some "URLError") none "req-1" (.ok .null) ["tb"]).stderr ∧
    (pollIteration (some "URLError") none "req-1" (.ok .null) ["tb"]).continuesLoop =
      true :=
  c4_amended_post_failure_path "URLError" none "req-1" .null ["tb"] (by rfl)

/-- C10: when the send of the response frame fails (network error) or the
socket is absent/not connected, `handle_invocation` completes normally with
the result silently dropped: nothing is delivered, `websocket.send` is
invoked at most once (no retry), no reconnection is triggered, no exception
escapes, and the failure is logged. -/
theorem c10_send_failure_silent_drop :
    ∀ (hs c : Bool) (net : Option String) (rid v : PyVal),
      net ≠ none ∨ hs = false ∨ c = false →
      (wsHandleInvocation hs c net rid (.ok v)).delivered = [] ∧
      (wsHandleInvocation hs c net rid (.ok v)).attempted.length ≤ 1 ∧
      (wsHandleInvocation hs c net rid (.ok v)).reconnectTriggered = false ∧
      (wsHandleInvocation hs c net rid (.ok v)).raisedOut = false ∧
      (wsHandleInvocation hs c net rid (.ok v)).stderr ≠ [] := by
  intro hs c net rid v hfail
  cases hs <;> cases c <;>
    cases net <;>
      simp_all [wsHandleInvocation, wsSend] <;>
        split <;> simp

/-- Witness for C10 at a concrete connected socket whose send raises. -/
theorem c10_witness :
    (wsHandleInvocation true true (some "ConnectionClosedError") (.str "req-9")
        (.ok (.num 5))).delivered = [] ∧
    (wsHandleInvocation true true (some "ConnectionClosedError") (.str "req-9")
        (.ok (.num 5))).attempted.length ≤ 1 ∧
    (wsHandleInvocation true true (some "ConnectionClosedError") (.str "req-9")
        (.ok (.num 5))).reconnectTriggered = false ∧
    (wsHandleInvocation true true (some "ConnectionClosedError") (.str "req-9")
        (.ok (.num 5))).raisedOut = false ∧
    (wsHandleInvocation true true (some "ConnectionClosedError") (.str "req-9")
        (.ok (.num 5))).stderr ≠ [] :=
  c10_send_failure_silent_drop true true (some "ConnectionClosedError")
    (.str "req-9") (.num 5) (Or.inl (by simp))
